import Mathlib

/-!
A shallow embedding of the jtd (JSON Typedef, RFC 8927) Python library:
`jtd/schema.py` (schema model, loader, semantic validator, form classifier)
and `jtd/validate.py` (instance validator), together with theorems about
the embedded definitions.

Modelling choices, used throughout:

* JSON numbers are modelled as rational numbers.  Python distinguishes
  `int` and `float` at runtime, but every check in the library treats the
  two alike (`type(x) in [int, float]`), and all numeric comparisons
  involved (`int(x) != x`, range bounds) are exact, so `ℚ` captures both.
* Python `dict`s (schema objects, instance objects, `definitions`,
  `properties`, ...) are modelled as association lists in insertion
  order.  Real JSON objects have pairwise distinct keys.
* Python booleans are a distinct constructor: `type(x) is bool` holds of
  no number, mirroring the exact-runtime-type checks in the source.
* Exceptions are modelled by explicit result constructors; host-level
  failures that the library neither raises nor catches on purpose
  (`KeyError`, `TypeError` from subscripting `None`, ...) are modelled by
  a dedicated `crash` constructor.
-/

inductive JSON where
  | null
  | bool (b : Bool)
  | num (q : ℚ)
  | str (s : String)
  | arr (elts : List JSON)
  | obj (mems : List (String × JSON))

/-- Python truthiness of a JSON value (`if x:`). -/
def jtruthy : JSON → Bool
  | .null => false
  | .bool b => b
  | .num q => q != 0
  | .str s => s != ""
  | .arr xs => !xs.isEmpty
  | .obj ms => !ms.isEmpty

/-- Python truthiness of an optional field (`None` is falsy). -/
def jtruthyOpt : Option JSON → Bool
  | none => false
  | some j => jtruthy j

def jIsNull : JSON → Bool
  | .null => true
  | _ => false

/-- Key lookup in a Python `dict` modelled as an association list.
JSON objects have unique keys, so first-match lookup is exact. -/
def lookupJSON : List (String × JSON) → String → Option JSON
  | [], _ => none
  | (k, v) :: rest, key => if k = key then some v else lookupJSON rest key

mutual
/-- Python `==` on JSON values: structural, except that `True == 1` and
`False == 0` (Python `bool` is an `int` subclass for equality). -/
def pyEq : JSON → JSON → Bool
  | .null, .null => true
  | .bool a, .bool b => a == b
  | .bool a, .num q => (if a then (1 : ℚ) else 0) == q
  | .num q, .bool b => q == (if b then (1 : ℚ) else 0)
  | .num a, .num b => a == b
  | .str a, .str b => a == b
  | .arr xs, .arr ys => pyEqList xs ys
  | .obj xs, .obj ys => xs.length == ys.length && pyEqMems xs ys
  | _, _ => false

def pyEqList : List JSON → List JSON → Bool
  | [], [] => true
  | a :: rest1, b :: rest2 => pyEq a b && pyEqList rest1 rest2
  | _, _ => false

def pyEqMems : List (String × JSON) → List (String × JSON) → Bool
  | [], _ => true
  | (k, v) :: rest, ys =>
    (match lookupJSON ys k with
     | some w => pyEq v w
     | none => false) && pyEqMems rest ys
end

/-- The eight JTD schema forms (`jtd/schema.py`, `class Form`). -/
inductive Form where
  | EMPTY
  | REF
  | TYPE
  | ENUM
  | ELEMENTS
  | PROPERTIES
  | VALUES
  | DISCRIMINATOR
deriving DecidableEq, Repr

/-- The `Schema` dataclass of `jtd/schema.py`.  The five primitive fields
(`metadata`, `nullable`, `ref`, `type`, `enum`, `additional_properties`,
`discriminator`) hold whatever JSON value `from_dict` copied verbatim;
the structured fields hold recursively loaded sub-schemas.  Lean
structures cannot be recursive, hence a single-constructor inductive with
accessor functions. -/
inductive Schema where
  | mk
      (metadata : Option JSON)
      (nullable : Option JSON)
      (definitions : Option (List (String × Schema)))
      (ref : Option JSON)
      (type : Option JSON)
      (enum : Option JSON)
      (elements : Option Schema)
      (properties : Option (List (String × Schema)))
      (optional_properties : Option (List (String × Schema)))
      (additional_properties : Option JSON)
      (values : Option Schema)
      (discriminator : Option JSON)
      (mapping : Option (List (String × Schema)))

def Schema.metadata : Schema → Option JSON
  | .mk x _ _ _ _ _ _ _ _ _ _ _ _ => x

def Schema.nullable : Schema → Option JSON
  | .mk _ x _ _ _ _ _ _ _ _ _ _ _ => x

def Schema.definitions : Schema → Option (List (String × Schema))
  | .mk _ _ x _ _ _ _ _ _ _ _ _ _ => x

def Schema.ref : Schema → Option JSON
  | .mk _ _ _ x _ _ _ _ _ _ _ _ _ => x

def Schema.type : Schema → Option JSON
  | .mk _ _ _ _ x _ _ _ _ _ _ _ _ => x

def Schema.enum : Schema → Option JSON
  | .mk _ _ _ _ _ x _ _ _ _ _ _ _ => x

def Schema.elements : Schema → Option Schema
  | .mk _ _ _ _ _ _ x _ _ _ _ _ _ => x

def Schema.properties : Schema → Option (List (String × Schema))
  | .mk _ _ _ _ _ _ _ x _ _ _ _ _ => x

def Schema.optional_properties : Schema → Option (List (String × Schema))
  | .mk _ _ _ _ _ _ _ _ x _ _ _ _ => x

def Schema.additional_properties : Schema → Option JSON
  | .mk _ _ _ _ _ _ _ _ _ x _ _ _ => x

def Schema.values : Schema → Option Schema
  | .mk _ _ _ _ _ _ _ _ _ _ x _ _ => x

def Schema.discriminator : Schema → Option JSON
  | .mk _ _ _ _ _ _ _ _ _ _ _ x _ => x

def Schema.mapping : Schema → Option (List (String × Schema))
  | .mk _ _ _ _ _ _ _ _ _ _ _ _ x => x

/-- The `_KEYWORDS` list of `jtd/schema.py`. -/
def Schema.keywords : List String :=
  ["metadata", "nullable", "definitions", "ref", "type", "enum", "elements",
   "properties", "optionalProperties", "additionalProperties", "values",
   "discriminator", "mapping"]

/-- The `_TYPE_VALUES` list of `jtd/schema.py`. -/
def Schema.typeValues : List String :=
  ["boolean", "int8", "uint8", "int16", "uint16", "int32", "uint32",
   "float32", "float64", "string", "timestamp"]

/-- The `_VALID_FORMS` table of `jtd/schema.py`: each row is the presence
bit vector of `ref, type, enum, elements, properties, optional_properties,
additional_properties, values, discriminator, mapping`. -/
def Schema.validForms : List (List Bool) :=
  [[false, false, false, false, false, false, false, false, false, false],
   [true, false, false, false, false, false, false, false, false, false],
   [false, true, false, false, false, false, false, false, false, false],
   [false, false, true, false, false, false, false, false, false, false],
   [false, false, false, true, false, false, false, false, false, false],
   [false, false, false, false, true, false, false, false, false, false],
   [false, false, false, false, false, true, false, false, false, false],
   [false, false, false, false, true, true, false, false, false, false],
   [false, false, false, false, true, false, true, false, false, false],
   [false, false, false, false, false, true, true, false, false, false],
   [false, false, false, false, true, true, true, false, false, false],
   [false, false, false, false, false, false, false, true, false, false],
   [false, false, false, false, false, false, false, false, true, true]]

/-- `Schema.form` of `jtd/schema.py`: first match in a fixed priority
order over presence of the form-bearing fields. -/
def Schema.form (s : Schema) : Form :=
  if s.ref.isSome then .REF
  else if s.type.isSome then .TYPE
  else if s.enum.isSome then .ENUM
  else if s.elements.isSome then .ELEMENTS
  else if s.properties.isSome || s.optional_properties.isSome then .PROPERTIES
  else if s.values.isSome then .VALUES
  else if s.discriminator.isSome then .DISCRIMINATOR
  else .EMPTY

/-- Partial result of loading the six sub-schema-bearing keywords, built
while folding over the members of a raw schema object. -/
structure SubLoads where
  definitions : Option (List (String × Schema))
  elements : Option Schema
  properties : Option (List (String × Schema))
  optional_properties : Option (List (String × Schema))
  values : Option Schema
  mapping : Option (List (String × Schema))

/-- Writes the loaded table `t` into the `SubLoads` field selected by the
map-valued keyword `k`. -/
def setMapField (acc : SubLoads) (k : String) (t : List (String × Schema)) : SubLoads :=
  if k = "definitions" then { acc with definitions := some t }
  else if k = "properties" then { acc with properties := some t }
  else if k = "optionalProperties" then { acc with optional_properties := some t }
  else { acc with mapping := some t }

/-- Writes the loaded sub-schema `s` into the `SubLoads` field selected
by the single-schema keyword `k`. -/
def setSingleField (acc : SubLoads) (k : String) (s : Schema) : SubLoads :=
  if k = "elements" then { acc with elements := some s }
  else { acc with values := some s }

mutual
/-- `Schema.from_dict` of `jtd/schema.py`.  `none` models the load
raising (`AttributeError "illegal keyword"` for an unknown key, or an
`AttributeError`/`TypeError` from recursing into a sub-value that is not
a JSON object).  The source reads the six structured keywords in a fixed
order and then scans all keys; here the members are folded once, which
fails on exactly the same inputs. -/
def fromDict : JSON → Option Schema
  | .obj d =>
    (loadMembers d).bind fun subs =>
      if d.all (fun kv => Schema.keywords.contains kv.1) then
        some (.mk (lookupJSON d "metadata") (lookupJSON d "nullable")
          subs.definitions (lookupJSON d "ref") (lookupJSON d "type")
          (lookupJSON d "enum") subs.elements subs.properties
          subs.optional_properties (lookupJSON d "additionalProperties")
          subs.values (lookupJSON d "discriminator") subs.mapping)
      else none
  | _ => none
termination_by j => sizeOf j

/-- Folds the members of a raw schema object, recursively loading the
values of the six structured keywords (`definitions`, `properties`,
`optionalProperties` and `mapping` must be objects of sub-schemas;
`elements` and `values` are single sub-schemas).  Later list entries are
processed first, so on (impossible in Python) duplicate keys the first
occurrence wins, matching `lookupJSON`. -/
def loadMembers : List (String × JSON) → Option SubLoads
  | [] => some ⟨none, none, none, none, none, none⟩
  | (k, v) :: rest =>
    (loadMembers rest).bind fun acc =>
      if k = "definitions" ∨ k = "properties" ∨ k = "optionalProperties" ∨
          k = "mapping" then
        match v with
        | .obj ms => (fromDictPairs ms).map fun t => setMapField acc k t
        | _ => none
      else if k = "elements" ∨ k = "values" then
        (fromDict v).map fun s => setSingleField acc k s
      else some acc
termination_by l => sizeOf l

/-- Loads every value of a `definitions` / `properties` /
`optionalProperties` / `mapping` object (`{ k: cls.from_dict(v) ... }`). -/
def fromDictPairs : List (String × JSON) → Option (List (String × Schema))
  | [] => some []
  | (k, v) :: rest =>
    (fromDict v).bind fun s =>
      (fromDictPairs rest).map fun t => (k, s) :: t
termination_by l => sizeOf l
end

/-- Outcome of the semantic check `Schema.validate`: `ok`, or a
`TypeError` with the message the source raises. -/
inductive SResult where
  | ok
  | fault (msg : String)
deriving DecidableEq, Repr

/-- Sequencing of checks with exception propagation: the first `fault`
wins, later checks run only when everything before them passed. -/
def SResult.andThen : SResult → (Unit → SResult) → SResult
  | .ok, f => f ()
  | r, _ => r

/-- Python membership of the (dynamically typed) `discriminator` value in
the string-keyed dict `properties` / `optional_properties`.  A value that
is not a string never equals a string key.  (An unhashable value - a list
or a dict - would raise `TypeError` in Python; that case is not separately
modelled and is not reachable in any theorem below.) -/
def keyInSchemaMap (d : Option JSON) (m : List (String × Schema)) : Bool :=
  match d with
  | some (.str s) => m.any (fun kv => kv.1 == s)
  | _ => false

/-- String payload of an enum element; only applied after the check that
every element is a string has passed. -/
def enumStr : JSON → String
  | .str s => s
  | _ => ""

/-- The duplicate test `len(self.enum) != len(set(self.enum))` of
`jtd/schema.py`; runs only after every element was checked to be a
string, so set membership is plain string equality. -/
def enumHasDup (xs : List JSON) : Bool :=
  !(xs.map enumStr).Nodup

mutual
/-- `Schema.validate` of `jtd/schema.py` (the semantic checker).  `root`
is the root schema against which `ref`s are resolved; `isRoot` models the
Python identity test `self is not root` (schemas built by `from_dict`
form trees, so the recursive calls are never identical to the root).
Checks run in source order; the first `TypeError` raised is returned as a
`fault`. -/
def svalidate (root : Schema) : Bool → Schema → SResult
  | isRoot, .mk _metadata nullable definitions ref ty enum elements props optProps addProps vals disc mapping =>
    (match definitions with
     | some defs =>
       (if !isRoot then SResult.fault "non-root definitions" else .ok).andThen fun _ =>
       svalidateValues root defs
     | none => .ok).andThen fun _ =>
    (match nullable with
     | some (.bool _) | none => SResult.ok
     | some _ => .fault "nullable not bool").andThen fun _ =>
    (match ref with
     | none => SResult.ok
     | some (.str r) =>
       (match root.definitions with
        | some defs =>
          if defs.any (fun kv => kv.1 == r) then .ok
          else .fault "ref to non-existent definition"
        | none => SResult.fault "ref but no definitions")
     | some _ => .fault "ref not string").andThen fun _ =>
    (match ty with
     | none => SResult.ok
     | some (.str t) =>
       if Schema.typeValues.contains t then .ok
       else .fault "type not valid string value"
     | some _ => .fault "type not valid string value").andThen fun _ =>
    (match enum with
     | none => SResult.ok
     | some (.arr xs) =>
       (if xs.length = 0 then SResult.fault "enum is empty" else .ok).andThen fun _ =>
       (if xs.all (fun e => match e with | .str _ => true | _ => false) then SResult.ok
        else SResult.fault "enum not list of strings").andThen fun _ =>
       (if enumHasDup xs then SResult.fault "enum contains duplicates" else .ok)
     | some _ => .fault "enum not list").andThen fun _ =>
    (match elements with
     | some sub => svalidate root false sub
     | none => .ok).andThen fun _ =>
    (match props with
     | some ps => svalidateValues root ps
     | none => .ok).andThen fun _ =>
    (match optProps with
     | some ps => svalidateValues root ps
     | none => .ok).andThen fun _ =>
    (match props, optProps with
     | some ps, some ops =>
       if ps.any (fun kv => ops.any (fun kv2 => kv2.1 == kv.1)) then
         SResult.fault "properties shares keys with optional_properties"
       else .ok
     | _, _ => SResult.ok).andThen fun _ =>
    (match addProps with
     | none => SResult.ok
     | some (.str _) => SResult.ok
     | some _ => .fault "additional_properties not string").andThen fun _ =>
    (match vals with
     | some sub => svalidate root false sub
     | none => .ok).andThen fun _ =>
    (match disc with
     | some (.str _) | none => SResult.ok
     | some _ => .fault "discriminator not string").andThen fun _ =>
    (match mapping with
     | some m => svalidateMapping root disc m
     | none => .ok).andThen fun _ =>
    (let sig : List Bool :=
      [ref.isSome, ty.isSome, enum.isSome, elements.isSome, props.isSome,
       optProps.isSome, addProps.isSome, vals.isSome, disc.isSome,
       mapping.isSome]
     if Schema.validForms.contains sig then .ok
     else SResult.fault "invalid form")

/-- Recursion of `Schema.validate` into every value of `definitions`,
`properties` and `optional_properties`. -/
def svalidateValues (root : Schema) : List (String × Schema) → SResult
  | [] => .ok
  | (_, v) :: rest =>
    (svalidate root false v).andThen fun _ => svalidateValues root rest

/-- Recursion of `Schema.validate` into every `mapping` value, with the
four per-value checks of the source, in source order. -/
def svalidateMapping (root : Schema) (disc : Option JSON) : List (String × Schema) → SResult
  | [] => .ok
  | (_, v) :: rest =>
    (svalidate root false v).andThen fun _ =>
    (if jtruthyOpt v.nullable then SResult.fault "mapping value is nullable"
     else .ok).andThen fun _ =>
    (if v.form != Form.PROPERTIES then
       SResult.fault "mapping value not of properties form"
     else .ok).andThen fun _ =>
    (if keyInSchemaMap disc (v.properties.getD []) then
       SResult.fault "mapping properties redefines discriminator"
     else .ok).andThen fun _ =>
    (if keyInSchemaMap disc (v.optional_properties.getD []) then
       SResult.fault "mapping optional_properties redefines discriminator"
     else .ok).andThen fun _ =>
    svalidateMapping root disc rest
end

/-- Entry point `schema.validate()` (no explicit root): the schema itself
is the root. -/
def Schema.selfValidate (s : Schema) : SResult :=
  svalidate s true s

/-- A single validation error (`jtd/validate.py`, `ValidationError`):
snapshots of the instance path and of the top schema-token frame. -/
structure ValidationError where
  instance_path : List String
  schema_path : List String
deriving DecidableEq, Repr

/-- `ValidationOptions` of `jtd/validate.py`.  Python stores `int`s and
only ever compares them for equality against stack lengths; the library
defaults are `0` (meaning: unlimited). -/
structure ValidationOptions where
  max_depth : Nat
  max_errors : Nat
deriving DecidableEq, Repr

/-- `_ValidationState` of `jtd/validate.py`.  `schema_tokens` is the
stack of per-`ref` token frames; Python keeps the top frame at the end of
the list, here the top frame is the head (innermost first), so a frame
push is `cons` and `schema_tokens[-1]` is `headD`.  Token lists inside a
frame, and `instance_tokens`, are kept in Python's order (append at the
end). -/
structure VState where
  config : ValidationOptions
  root_schema : Schema
  instance_tokens : List String
  schema_tokens : List (List String)
  errors : List ValidationError

def pushInstanceToken (s : VState) (t : String) : VState :=
  { s with instance_tokens := s.instance_tokens ++ [t] }

def popInstanceToken (s : VState) : VState :=
  { s with instance_tokens := s.instance_tokens.dropLast }

/-- Appends a token to the top schema frame.  The frame stack is never
empty while the walker runs (Python would raise `IndexError` otherwise);
the `[]` fallback is unreachable. -/
def pushSchemaToken (s : VState) (t : String) : VState :=
  { s with schema_tokens :=
      match s.schema_tokens with
      | f :: rest => (f ++ [t]) :: rest
      | [] => [] }

def popSchemaToken (s : VState) : VState :=
  { s with schema_tokens :=
      match s.schema_tokens with
      | f :: rest => f.dropLast :: rest
      | [] => [] }

def pushSchemaFrame (s : VState) (f : List String) : VState :=
  { s with schema_tokens := f :: s.schema_tokens }

def popSchemaFrame (s : VState) : VState :=
  { s with schema_tokens := s.schema_tokens.tail }

/-- Result of a walker call.  `ok` is a normal return; `maxErrors` and
`maxDepth` model the propagating `_MaxErrorsReached` /
`MaxDepthExceededError` exceptions (each carries the state at raise
time); `crash` models a host-level exception the library does not raise
on purpose (e.g. a `KeyError` on an unresolvable `ref`); `noFuel` is an
artifact of the fuel-based embedding of unbounded recursion. -/
inductive WalkResult where
  | ok (s : VState)
  | maxErrors (s : VState)
  | maxDepth (s : VState)
  | crash (s : VState)
  | noFuel (s : VState)

def WalkResult.state : WalkResult → VState
  | .ok s => s
  | .maxErrors s => s
  | .maxDepth s => s
  | .crash s => s
  | .noFuel s => s

/-- Exception propagation: later steps run only on a normal return. -/
def WalkResult.andThen : WalkResult → (VState → WalkResult) → WalkResult
  | .ok s, f => f s
  | r, _ => r

/-- `_ValidationState.push_error` of `jtd/validate.py`: append a snapshot
error, then raise `_MaxErrorsReached` when the count has reached
`max_errors` (never for the default `max_errors = 0`, since the count is
then at least 1). -/
def pushError (s : VState) : WalkResult :=
  let s2 : VState :=
    { s with errors :=
        s.errors ++ [⟨s.instance_tokens, s.schema_tokens.headD []⟩] }
  if s2.errors.length = s2.config.max_errors then .maxErrors s2 else .ok s2

def lookupSchema : List (String × Schema) → String → Option Schema
  | [], _ => none
  | (k, v) :: rest, key => if k = key then some v else lookupSchema rest key

/-- REF arm of `_validate_with_state`.  Python pushes the new frame and
then subscripts `root_schema.definitions`; an unresolvable `ref` (only
possible on semantically invalid schemas) raises `KeyError`/`TypeError`,
modelled as `crash` (the state carried by a `crash` is never inspected). -/
def refCase (recur : VState → Schema → JSON → Option String → WalkResult)
    (s : VState) (schema : Schema) (inst : JSON) : WalkResult :=
  if s.schema_tokens.length = s.config.max_depth then .maxDepth s
  else
    match schema.ref, s.root_schema.definitions with
    | some (.str r), some defs =>
      match lookupSchema defs r with
      | some sub =>
        let s := pushSchemaFrame s ["definitions", r]
        (recur s sub inst none).andThen fun s => .ok (popSchemaFrame s)
      | none => .crash s
    | _, _ => .crash s

/-- `_validate_int` of `jtd/validate.py`: `type(instance) not in [int,
float]` is "not a JSON number" (booleans have exact runtime type `bool`),
and `int(instance) != instance` is "has a nonzero fractional part". -/
def validateInt (s : VState) (lo hi : ℚ) (inst : JSON) : WalkResult :=
  match inst with
  | .num q => if q.den ≠ 1 ∨ q < lo ∨ hi < q then pushError s else .ok s
  | _ => pushError s

/-- Final arm of the TYPE dispatch: `type(instance) is not str or not
strict_rfc3339.validate_rfc3339(instance)`.  The RFC 3339 predicate is an
external collaborator, passed in as `rfc`. -/
def timestampCheck (rfc : String → Bool) (s : VState) (inst : JSON) : WalkResult :=
  match inst with
  | .str v => if rfc v then .ok s else pushError s
  | _ => pushError s

/-- Dispatch on `schema.type` inside the TYPE arm.  A `type` value that
is not a string compares unequal to every tag, so Python falls through to
the timestamp branch; same for an unknown string tag. -/
def typeDispatch (rfc : String → Bool) (s : VState) (ty : Option JSON)
    (inst : JSON) : WalkResult :=
  match ty with
  | some (.str t) =>
    if t = "boolean" then
      match inst with
      | .bool _ => .ok s
      | _ => pushError s
    else if t = "float32" ∨ t = "float64" then
      match inst with
      | .num _ => .ok s
      | _ => pushError s
    else if t = "int8" then validateInt s (-128) 127 inst
    else if t = "uint8" then validateInt s 0 255 inst
    else if t = "int16" then validateInt s (-32768) 32767 inst
    else if t = "uint16" then validateInt s 0 65535 inst
    else if t = "int32" then validateInt s (-2147483648) 2147483647 inst
    else if t = "uint32" then validateInt s 0 4294967295 inst
    else if t = "string" then
      match inst with
      | .str _ => .ok s
      | _ => pushError s
    else timestampCheck rfc s inst
  | _ => timestampCheck rfc s inst

/-- TYPE arm of `_validate_with_state`: push `"type"`, dispatch, pop. -/
def typeCase (rfc : String → Bool) (s : VState) (ty : Option JSON)
    (inst : JSON) : WalkResult :=
  let s := pushSchemaToken s "type"
  (typeDispatch rfc s ty inst).andThen fun s => .ok (popSchemaToken s)

/-- ENUM arm: `instance not in schema.enum` iterates the enum list with
Python `==`.  An `enum` that is not a list (only possible on semantically
invalid schemas) raises for non-iterable values in Python and is modelled
as a crash; unreachable in every theorem below. -/
def enumCase (s : VState) (enum : Option JSON) (inst : JSON) : WalkResult :=
  let s := pushSchemaToken s "enum"
  (match enum with
   | some (.arr xs) =>
     if xs.any (fun e => pyEq inst e) then WalkResult.ok s else pushError s
   | _ => WalkResult.crash s).andThen fun s => .ok (popSchemaToken s)

/-- ELEMENTS arm: iterate the array with decimal index tokens.  An
ELEMENTS-form schema always has `elements` present; on `none` Python
would crash recursing into `None`. -/
def elementsCase (recur : VState → Schema → JSON → Option String → WalkResult)
    (s : VState) (schema : Schema) (inst : JSON) : WalkResult :=
  let s := pushSchemaToken s "elements"
  (match inst with
   | .arr xs =>
     match schema.elements with
     | some elemSchema =>
       xs.enum.foldl (fun (r : WalkResult) (iv : Nat × JSON) =>
         r.andThen fun s =>
           let s := pushInstanceToken s (toString iv.1)
           (recur s elemSchema iv.2 none).andThen fun s =>
             .ok (popInstanceToken s)) (WalkResult.ok s)
     | none => WalkResult.crash s
   | _ => pushError s).andThen fun s => .ok (popSchemaToken s)

/-- PROPERTIES arm, mirroring the source statement by statement:
required properties (missing one is an error at `properties/k`), then
optional properties, then - unless `additional_properties` is truthy -
one error per instance key that is in neither map and is not the
discriminator `parent_tag`. -/
def propertiesCase (recur : VState → Schema → JSON → Option String → WalkResult)
    (s : VState) (schema : Schema) (inst : JSON)
    (parent_tag : Option String) : WalkResult :=
  match inst with
  | .obj mems =>
    (let s := pushSchemaToken s "properties"
     (schema.properties.getD []).foldl (fun (r : WalkResult) kv =>
       r.andThen fun s =>
         let s := pushSchemaToken s kv.1
         ((match lookupJSON mems kv.1 with
           | some v =>
             let s := pushInstanceToken s kv.1
             (recur s kv.2 v none).andThen fun s => .ok (popInstanceToken s)
           | none => pushError s) : WalkResult).andThen fun s =>
           .ok (popSchemaToken s)) (WalkResult.ok s)).andThen fun s =>
    (let s := popSchemaToken s
     let s := pushSchemaToken s "optionalProperties"
     ((schema.optional_properties.getD []).foldl (fun (r : WalkResult) kv =>
       r.andThen fun s =>
         let s := pushSchemaToken s kv.1
         ((match lookupJSON mems kv.1 with
           | some v =>
             let s := pushInstanceToken s kv.1
             (recur s kv.2 v none).andThen fun s => .ok (popInstanceToken s)
           | none => WalkResult.ok s) : WalkResult).andThen fun s =>
           .ok (popSchemaToken s)) (WalkResult.ok s)).andThen fun s =>
     let s := popSchemaToken s
     if jtruthyOpt schema.additional_properties then .ok s
     else
       mems.foldl (fun (r : WalkResult) kv =>
         r.andThen fun s =>
           if !((schema.properties.getD []).any (fun p => p.1 == kv.1)) &&
              !((schema.optional_properties.getD []).any (fun p => p.1 == kv.1)) &&
              parent_tag != some kv.1 then
             let s := pushInstanceToken s kv.1
             (pushError s).andThen fun s => .ok (popInstanceToken s)
           else .ok s) (WalkResult.ok s))
  | _ =>
    if schema.properties.isSome then
      let s := pushSchemaToken s "properties"
      (pushError s).andThen fun s => .ok (popSchemaToken s)
    else
      let s := pushSchemaToken s "optionalProperties"
      (pushError s).andThen fun s => .ok (popSchemaToken s)

/-- VALUES arm: recurse into every member value of the instance object. -/
def valuesCase (recur : VState → Schema → JSON → Option String → WalkResult)
    (s : VState) (schema : Schema) (inst : JSON) : WalkResult :=
  let s := pushSchemaToken s "values"
  (match inst with
   | .obj mems =>
     match schema.values with
     | some valSchema =>
       mems.foldl (fun (r : WalkResult) (kv : String × JSON) =>
         r.andThen fun s =>
           let s := pushInstanceToken s kv.1
           (recur s valSchema kv.2 none).andThen fun s =>
             .ok (popInstanceToken s)) (WalkResult.ok s)
     | none => WalkResult.crash s
   | _ => pushError s).andThen fun s => .ok (popSchemaToken s)

/-- DISCRIMINATOR arm.  Note the final (non-object instance) branch: the
source reads `state.pop_schema_token` without parentheses, a bare
attribute access that performs no call, so the pushed `"discriminator"`
token is NOT popped there; the embedding reproduces that.  A
DISCRIMINATOR-form schema always has `discriminator` present; a
non-string discriminator is never a key of a string-keyed instance (an
unhashable one would raise in Python, modelled as a crash); a
DISCRIMINATOR-form schema with `mapping` absent makes Python subscript
`None`, modelled as a crash. -/
def discriminatorCase (recur : VState → Schema → JSON → Option String → WalkResult)
    (s : VState) (schema : Schema) (inst : JSON) : WalkResult :=
  match inst with
  | .obj mems =>
    match schema.discriminator with
    | some (.str d) =>
      match lookupJSON mems d with
      | some (.str t) =>
        match schema.mapping with
        | some mapping =>
          match lookupSchema mapping t with
          | some sub =>
            let s := pushSchemaToken s "mapping"
            let s := pushSchemaToken s t
            (recur s sub inst (some d)).andThen fun s =>
              .ok (popSchemaToken (popSchemaToken s))
          | none =>
            let s := pushSchemaToken s "mapping"
            let s := pushInstanceToken s d
            (pushError s).andThen fun s =>
              .ok (popSchemaToken (popInstanceToken s))
        | none => .crash s
      | some _ =>
        let s := pushSchemaToken s "discriminator"
        let s := pushInstanceToken s d
        (pushError s).andThen fun s =>
          .ok (popSchemaToken (popInstanceToken s))
      | none =>
        let s := pushSchemaToken s "discriminator"
        (pushError s).andThen fun s => .ok (popSchemaToken s)
    | some (.arr _) | some (.obj _) => .crash s
    | some _ =>
      let s := pushSchemaToken s "discriminator"
      (pushError s).andThen fun s => .ok (popSchemaToken s)
    | none => .crash s
  | _ =>
    let s := pushSchemaToken s "discriminator"
    (pushError s).andThen fun s => .ok s

/-- `_validate_with_state` of `jtd/validate.py`, with a fuel parameter
bounding the recursion depth (Python recursion is unbounded; `noFuel`
marks runs that would recurse deeper than `fuel`). -/
def vws (rfc : String → Bool) : Nat → VState → Schema → JSON → Option String → WalkResult
  | 0, s, _, _, _ => .noFuel s
  | fuel + 1, s, schema, inst, parent_tag =>
    if jtruthyOpt schema.nullable && jIsNull inst then .ok s
    else
      match schema.form with
      | .REF => refCase (vws rfc fuel) s schema inst
      | .TYPE => typeCase rfc s schema.type inst
      | .ENUM => enumCase s schema.enum inst
      | .ELEMENTS => elementsCase (vws rfc fuel) s schema inst
      | .PROPERTIES => propertiesCase (vws rfc fuel) s schema inst parent_tag
      | .VALUES => valuesCase (vws rfc fuel) s schema inst
      | .DISCRIMINATOR => discriminatorCase (vws rfc fuel) s schema inst
      | .EMPTY => .ok s

/-- Observable outcome of the top-level `validate`. -/
inductive ValidateOutcome where
  | result (errors : List ValidationError)
  | maxDepthExceeded
  | crashed
  | fuelOut
deriving DecidableEq, Repr

/-- The initial `_ValidationState` built by `validate`: empty instance
path, one empty schema frame, no errors. -/
def initState (schema : Schema) (options : ValidationOptions) : VState :=
  ⟨options, schema, [], [[]], []⟩

/-- Top-level `validate` of `jtd/validate.py`: runs the walker, catches
`_MaxErrorsReached` (returning the errors collected so far), and lets
`MaxDepthExceededError` (and host-level crashes) propagate. -/
def jtdValidate (rfc : String → Bool) (fuel : Nat) (schema : Schema)
    (inst : JSON) (options : ValidationOptions) : ValidateOutcome :=
  match vws rfc fuel (initState schema options) schema inst none with
  | .ok s => .result s.errors
  | .maxErrors s => .result s.errors
  | .maxDepth _ => .maxDepthExceeded
  | .crash _ => .crashed
  | .noFuel _ => .fuelOut

/-- The final `_ValidationState` after a top-level `validate` call (the
state as left behind on any exit path). -/
def jtdValidateState (rfc : String → Bool) (fuel : Nat) (schema : Schema)
    (inst : JSON) (options : ValidationOptions) : VState :=
  (vws rfc fuel (initState schema options) schema inst none).state

/-- Concrete stand-in for the external RFC 3339 predicate, used only in
evaluations that never reach the timestamp branch. -/
def rfcNone : String → Bool := fun _ => false

/-- TYPE-form schema carrying only the given type tag. -/
def typeSchema (t : String) : Schema :=
  .mk none none none none (some (.str t)) none none none none none none none none

/-- ELEMENTS-form schema: array of strings. -/
def elementsStringSchema : Schema :=
  .mk none none none none none none (some (typeSchema "string")) none none none none none none

/-- PROPERTIES-form sub-schema of the discriminator scenario: one
required property `x` of type string. -/
def discMapValueSchema : Schema :=
  .mk none none none none none none none (some [("x", typeSchema "string")]) none none none none none

/-- DISCRIMINATOR-form schema with tag key `t` and one mapping entry `a`. -/
def discSchema : Schema :=
  .mk none none none none none none none none none none none (some (.str "t"))
    (some [("a", discMapValueSchema)])

/-- PROPERTIES-form schema with an empty `properties` map. -/
def emptyPropsSchema : Schema :=
  .mk none none none none none none none (some []) none none none none none

/-- DISCRIMINATOR-form schema whose single mapping value is the empty
PROPERTIES schema. -/
def discEmptySchema : Schema :=
  .mk none none none none none none none none none none none (some (.str "t"))
    (some [("a", emptyPropsSchema)])

/-- The self-referential definition `loop`. -/
def loopRefSchema : Schema :=
  .mk none none none (some (.str "loop")) none none none none none none none none none

/-- Root schema of the recursion-limit scenario: `ref: loop` with
`definitions.loop` being `ref: loop` again. -/
def loopRootSchema : Schema :=
  .mk none none (some [("loop", loopRefSchema)]) (some (.str "loop")) none none none none none
    none none none none

/-- Schema with empty `properties` and boolean `additionalProperties`. -/
def addPropsTrueSchema : Schema :=
  .mk none none none none none none none (some []) none (some (.bool true)) none none none

/-- Schema with empty `properties` and the string `"weird"` as
`additionalProperties`. -/
def addPropsStrSchema : Schema :=
  .mk none none none none none none none (some []) none (some (.str "weird")) none none none

/-- Nullable TYPE-form schema (for the nullable short-circuit scenario). -/
def nullableStringSchema : Schema :=
  .mk none (some (.bool true)) none none (some (.str "string")) none none none none none none
    none none

/-- Schema with both `ref` and `type` set (invalid form; the classifier
is still total on it). -/
def refAndTypeSchema : Schema :=
  .mk none none none (some (.str "d")) (some (.str "string")) none none none none none none
    none none

/-- Schema with `mapping` but no `discriminator` (invalid form; the
classifier is still total on it). -/
def mappingOnlySchema : Schema :=
  .mk none none none none none none none none none none none none
    (some [("a", emptyPropsSchema)])

/-- Claim-side table of the sized-integer ranges (C6), transcribed from
the claim text. -/
def specSizedIntBounds : String → ℚ × ℚ
  | "int8" => (-128, 127)
  | "uint8" => (0, 255)
  | "int16" => (-32768, 32767)
  | "uint16" => (0, 65535)
  | "int32" => (-2147483648, 2147483647)
  | "uint32" => (0, 4294967295)
  | _ => (0, 0)

/-- Claim-side predicate (C6): a JSON number, mathematically integral,
within the inclusive range. -/
def specIntegerInRange (lo hi : ℚ) : JSON → Bool
  | .num q => q.den == 1 && decide (lo ≤ q) && decide (q ≤ hi)
  | _ => false

mutual
/-- Claim-side predicate (C8): some object at some schema position of the
raw value contains a key outside the thirteen keywords.  Schema positions
are the top level, the member values of the values under `definitions`,
`properties`, `optionalProperties` and `mapping`, and the values under
`elements` and `values`, recursively. -/
def specHasUnknownKeyword : JSON → Bool
  | .obj d => specMembersHaveUnknown d
  | _ => false

def specMembersHaveUnknown : List (String × JSON) → Bool
  | [] => false
  | (k, v) :: rest =>
    !(Schema.keywords.contains k) ||
    (if k = "definitions" ∨ k = "properties" ∨ k = "optionalProperties" ∨
        k = "mapping" then specMapValue v
     else if k = "elements" ∨ k = "values" then specHasUnknownKeyword v
     else false) ||
    specMembersHaveUnknown rest

def specMapValue : JSON → Bool
  | .obj ms => specPairsHaveUnknown ms
  | _ => false

def specPairsHaveUnknown : List (String × JSON) → Bool
  | [] => false
  | (_, v) :: rest => specHasUnknownKeyword v || specPairsHaveUnknown rest
end

mutual
/-- Claim-side hypothesis (C8): the raw value is a JSON object whose
values under the six structured keywords are recursively JSON objects
(for the map-valued four: objects of objects). -/
def goodShape : JSON → Bool
  | .obj d => goodMembers d
  | _ => false

def goodMembers : List (String × JSON) → Bool
  | [] => true
  | (k, v) :: rest =>
    (if k = "definitions" ∨ k = "properties" ∨ k = "optionalProperties" ∨
        k = "mapping" then goodMapValue v
     else if k = "elements" ∨ k = "values" then goodShape v
     else true) &&
    goodMembers rest

def goodMapValue : JSON → Bool
  | .obj ms => goodPairs ms
  | _ => false

def goodPairs : List (String × JSON) → Bool
  | [] => true
  | (_, v) :: rest => goodShape v && goodPairs rest
end

/-- Invariant on a state the walker continues from (C3): the configured
limit is `cap`, and when a limit is set the error count is strictly below
it. -/
def VState.preOk (cap : Nat) (s : VState) : Prop :=
  s.config.max_errors = cap ∧ (cap ≠ 0 → s.errors.length < cap)

/-- Invariant on walker results (C3): on every exit except the
`_MaxErrorsReached` unwind the count stays below the limit, and the
unwind happens exactly at the limit. -/
def WalkResult.errInv (cap : Nat) : WalkResult → Prop
  | .ok s => s.preOk cap
  | .maxErrors s => s.config.max_errors = cap ∧ s.errors.length = cap ∧ cap ≠ 0
  | .maxDepth s => s.preOk cap
  | .crash s => s.preOk cap
  | .noFuel s => s.preOk cap

theorem pushError_errInv (cap : Nat) (s : VState) (h : s.preOk cap) :
    (pushError s).errInv cap := by
  obtain ⟨hc, hb⟩ := h
  unfold pushError
  dsimp only
  split
  next heq =>
    have h2 : s.errors.length + 1 = cap := by
      have h3 : (s.errors ++ [⟨s.instance_tokens, s.schema_tokens.headD []⟩]
          : List ValidationError).length = cap := heq.trans hc
      simpa using h3
    exact ⟨hc, by simpa using h2, by omega⟩
  next hne =>
    refine ⟨hc, fun h0 => ?_⟩
    have h2 : s.errors.length + 1 ≠ cap := by
      intro h3
      exact hne (by simpa using h3.trans hc.symm)
    have h4 := hb h0
    simpa using by omega

theorem andThen_errInv (cap : Nat) (r : WalkResult) (f : VState → WalkResult)
    (hr : r.errInv cap) (hf : ∀ s, s.preOk cap → (f s).errInv cap) :
    (r.andThen f).errInv cap := by
  cases r with
  | ok s => exact hf s hr
  | maxErrors s => exact hr
  | maxDepth s => exact hr
  | crash s => exact hr
  | noFuel s => exact hr

theorem foldl_errInv {α : Type} (cap : Nat) (g : α → VState → WalkResult)
    (l : List α) (r : WalkResult) (hr : r.errInv cap)
    (hg : ∀ a s, s.preOk cap → (g a s).errInv cap) :
    (l.foldl (fun acc a => acc.andThen (g a)) r).errInv cap := by
  induction l generalizing r with
  | nil => exact hr
  | cons a rest ih => exact ih (r.andThen (g a)) (andThen_errInv cap r (g a) hr (hg a))

theorem validateInt_errInv (cap : Nat) (s : VState) (lo hi : ℚ) (inst : JSON)
    (hs : s.preOk cap) : (validateInt s lo hi inst).errInv cap := by
  unfold validateInt
  split
  · split
    · exact pushError_errInv cap s hs
    · exact hs
  · exact pushError_errInv cap s hs

theorem timestampCheck_errInv (cap : Nat) (rfc : String → Bool) (s : VState)
    (inst : JSON) (hs : s.preOk cap) : (timestampCheck rfc s inst).errInv cap := by
  unfold timestampCheck
  split
  · split
    · exact hs
    · exact pushError_errInv cap s hs
  · exact pushError_errInv cap s hs

theorem typeDispatch_errInv (cap : Nat) (rfc : String → Bool) (s : VState)
    (ty : Option JSON) (inst : JSON) (hs : s.preOk cap) :
    (typeDispatch rfc s ty inst).errInv cap := by
  unfold typeDispatch
  repeat' split
  all_goals
    first
      | exact hs
      | exact pushError_errInv cap s hs
      | exact validateInt_errInv cap s _ _ inst hs
      | exact timestampCheck_errInv cap rfc s inst hs

theorem typeCase_errInv (cap : Nat) (rfc : String → Bool) (s : VState)
    (ty : Option JSON) (inst : JSON) (hs : s.preOk cap) :
    (typeCase rfc s ty inst).errInv cap := by
  unfold typeCase
  exact andThen_errInv cap _ _ (typeDispatch_errInv cap rfc _ ty inst hs)
    (fun s2 h2 => h2)

theorem enumCase_errInv (cap : Nat) (s : VState) (enum : Option JSON)
    (inst : JSON) (hs : s.preOk cap) : (enumCase s enum inst).errInv cap := by
  unfold enumCase
  refine andThen_errInv cap _ _ ?_ (fun s2 h2 => h2)
  split
  · split
    · exact hs
    · exact pushError_errInv cap _ hs
  · exact hs

theorem refCase_errInv (cap : Nat)
    (recur : VState → Schema → JSON → Option String → WalkResult)
    (s : VState) (schema : Schema) (inst : JSON)
    (hrec : ∀ s2 sch i pt, s2.preOk cap → (recur s2 sch i pt).errInv cap)
    (hs : s.preOk cap) : (refCase recur s schema inst).errInv cap := by
  unfold refCase
  split
  · exact hs
  · split
    · split
      · exact andThen_errInv cap _ _ (hrec _ _ _ _ hs) (fun s2 h2 => h2)
      · exact hs
    · exact hs

theorem elementsCase_errInv (cap : Nat)
    (recur : VState → Schema → JSON → Option String → WalkResult)
    (s : VState) (schema : Schema) (inst : JSON)
    (hrec : ∀ s2 sch i pt, s2.preOk cap → (recur s2 sch i pt).errInv cap)
    (hs : s.preOk cap) : (elementsCase recur s schema inst).errInv cap := by
  unfold elementsCase
  refine andThen_errInv cap _ _ ?_ (fun s2 h2 => h2)
  split
  · split
    · refine foldl_errInv cap _ _ _ hs ?_
      intro iv s2 h2
      refine andThen_errInv cap _ _ ?_ (fun s3 h3 => h3)
      exact hrec _ _ _ _ h2
    · exact hs
  · exact pushError_errInv cap _ hs

theorem valuesCase_errInv (cap : Nat)
    (recur : VState → Schema → JSON → Option String → WalkResult)
    (s : VState) (schema : Schema) (inst : JSON)
    (hrec : ∀ s2 sch i pt, s2.preOk cap → (recur s2 sch i pt).errInv cap)
    (hs : s.preOk cap) : (valuesCase recur s schema inst).errInv cap := by
  unfold valuesCase
  refine andThen_errInv cap _ _ ?_ (fun s2 h2 => h2)
  split
  · split
    · refine foldl_errInv cap _ _ _ hs ?_
      intro kv s2 h2
      refine andThen_errInv cap _ _ ?_ (fun s3 h3 => h3)
      exact hrec _ _ _ _ h2
    · exact hs
  · exact pushError_errInv cap _ hs

theorem propertiesCase_errInv (cap : Nat)
    (recur : VState → Schema → JSON → Option String → WalkResult)
    (s : VState) (schema : Schema) (inst : JSON) (parent_tag : Option String)
    (hrec : ∀ s2 sch i pt, s2.preOk cap → (recur s2 sch i pt).errInv cap)
    (hs : s.preOk cap) :
    (propertiesCase recur s schema inst parent_tag).errInv cap := by
  unfold propertiesCase
  split
  · refine andThen_errInv cap _ _ ?_ ?_
    · refine foldl_errInv cap _ _ _ hs ?_
      intro kv s2 h2
      refine andThen_errInv cap _ _ ?_ (fun s3 h3 => h3)
      split
      · exact andThen_errInv cap _ _ (hrec _ _ _ _ h2) (fun s3 h3 => h3)
      · exact pushError_errInv cap _ h2
    · intro s2 h2
      refine andThen_errInv cap _ _ ?_ ?_
      · refine foldl_errInv cap _ _ _ h2 ?_
        intro kv s3 h3
        refine andThen_errInv cap _ _ ?_ (fun s4 h4 => h4)
        split
        · exact andThen_errInv cap _ _ (hrec _ _ _ _ h3) (fun s4 h4 => h4)
        · exact h3
      · intro s3 h3
        split
        · exact h3
        · refine foldl_errInv cap _ _ _ h3 ?_
          intro kv s4 h4
          split
          · exact andThen_errInv cap _ _ (pushError_errInv cap _ h4) (fun s5 h5 => h5)
          · exact h4
  · split
    · exact andThen_errInv cap _ _ (pushError_errInv cap _ hs) (fun s2 h2 => h2)
    · exact andThen_errInv cap _ _ (pushError_errInv cap _ hs) (fun s2 h2 => h2)

theorem discriminatorCase_errInv (cap : Nat)
    (recur : VState → Schema → JSON → Option String → WalkResult)
    (s : VState) (schema : Schema) (inst : JSON)
    (hrec : ∀ s2 sch i pt, s2.preOk cap → (recur s2 sch i pt).errInv cap)
    (hs : s.preOk cap) : (discriminatorCase recur s schema inst).errInv cap := by
  unfold discriminatorCase
  repeat' split
  all_goals
    first
      | exact hs
      | exact andThen_errInv cap _ _ (hrec _ _ _ _ hs) (fun s2 h2 => h2)
      | exact andThen_errInv cap _ _ (pushError_errInv cap _ hs) (fun s2 h2 => h2)

theorem vws_errInv (rfc : String → Bool) (cap : Nat) :
    ∀ (fuel : Nat) (s : VState) (schema : Schema) (inst : JSON)
      (pt : Option String),
      s.preOk cap → (vws rfc fuel s schema inst pt).errInv cap := by
  intro fuel
  induction fuel with
  | zero => intro s schema inst pt hs; exact hs
  | succ fuel ih =>
    intro s schema inst pt hs
    rw [vws]
    split
    · exact hs
    · split
      · exact refCase_errInv cap _ s schema inst (fun a b c d h => ih a b c d h) hs
      · exact typeCase_errInv cap rfc s schema.type inst hs
      · exact enumCase_errInv cap s schema.enum inst hs
      · exact elementsCase_errInv cap _ s schema inst (fun a b c d h => ih a b c d h) hs
      · exact propertiesCase_errInv cap _ s schema inst pt (fun a b c d h => ih a b c d h) hs
      · exact valuesCase_errInv cap _ s schema inst (fun a b c d h => ih a b c d h) hs
      · exact discriminatorCase_errInv cap _ s schema inst (fun a b c d h => ih a b c d h) hs
      · exact hs

/-- Claim C1: the claim says `Schema.validate` accepts a boolean
`additional_properties` and faults exactly when the field is present and
not a boolean.  The source (schema.py line 254) tests
`type(self.additional_properties) is not str`, so a boolean value faults
with `TypeError("additional_properties not string")` while a string value
passes the rule (and, next to `properties`, the whole check): the check
is inverted with respect to the dataclass annotation `Optional[bool]`,
the spec, and RFC 8927.  This theorem evaluates the embedded code on both
sides of the bug. -/
theorem additional_properties_check_inverted :
    (∀ b : Bool, Schema.selfValidate
      (.mk none none none none none none none (some []) none
        (some (.bool b)) none none none) =
      .fault "additional_properties not string") ∧
    Schema.selfValidate addPropsTrueSchema =
      .fault "additional_properties not string" ∧
    Schema.selfValidate addPropsStrSchema = .ok := by
  refine ⟨fun b => by cases b <;> decide, by decide, by decide⟩

/-- Claim C2: the claim says that after `validate` returns, `instance_tokens`
is empty and `schema_tokens` is one empty frame, in particular after
validating a non-object instance against a DISCRIMINATOR-form schema.
In exactly that case the source (validate.py line 264) reads
`state.pop_schema_token` without parentheses, so the `"discriminator"`
token pushed two lines earlier is never popped: the final state has the
single frame `["discriminator"]`, not `[]`.  This theorem evaluates the
embedded code at that failing input (the error list itself is the
expected one). -/
theorem discriminator_non_object_leaves_token :
    (jtdValidateState rfcNone 5 discEmptySchema (.num 1) ⟨0, 0⟩).instance_tokens = [] ∧
    (jtdValidateState rfcNone 5 discEmptySchema (.num 1) ⟨0, 0⟩).schema_tokens =
      [["discriminator"]] ∧
    jtdValidate rfcNone 5 discEmptySchema (.num 1) ⟨0, 0⟩ =
      .result [⟨[], ["discriminator"]⟩] := by
  refine ⟨by decide, by decide, by decide⟩

/-- Claim C4: with `max_depth` nonzero, a walker call about to descend into a
REF-form schema while the number of active schema frames equals
`max_depth` raises `MaxDepthExceededError` (not a `ValidationError`),
leaving the state untouched; and the whole-call scenario of the claim:
validating the looping ref schema against `null` with `max_depth = 32`
surfaces the abort to the caller. -/
theorem ref_max_depth_aborts (rfc : String → Bool) (fuel : Nat) (s : VState)
    (schema : Schema) (inst : JSON) (pt : Option String)
    (hform : schema.form = .REF)
    (hnull : (jtruthyOpt schema.nullable && jIsNull inst) = false)
    (hdep : s.schema_tokens.length = s.config.max_depth)
    (_hcap : s.config.max_depth ≠ 0) :
    vws rfc (fuel + 1) s schema inst pt = .maxDepth s ∧
    jtdValidate rfcNone 40 loopRootSchema .null ⟨32, 0⟩ = .maxDepthExceeded := by
  constructor
  · rw [vws, hnull]
    simp only [Bool.false_eq_true, if_false]
    rw [hform]
    unfold refCase
    rw [if_pos hdep]
  · decide

/-- Claim C5: the discriminator scenario of the claim: the matching instance
produces no error; the instance whose `x` is a number produces exactly
one error at `instance_path = ["x"]`,
`schema_path = ["mapping", "a", "properties", "x", "type"]` (the
discriminator key `t` is not reported as an additional property). -/
theorem discriminator_scenario :
    jtdValidate rfcNone 5 discSchema
        (.obj [("t", .str "a"), ("x", .str "ok")]) ⟨0, 0⟩ = .result [] ∧
    jtdValidate rfcNone 5 discSchema
        (.obj [("t", .str "a"), ("x", .num 1)]) ⟨0, 0⟩ =
      .result [⟨["x"], ["mapping", "a", "properties", "x", "type"]⟩] := by
  refine ⟨by decide, by decide⟩

/-- Claim C7: a schema whose `nullable` field is the JSON boolean `true` makes
`validate` return the empty error list on the JSON `null` instance, for
every schema form and every options: the walker returns before any form
dispatch. -/
theorem nullable_null_short_circuit (rfc : String → Bool) (fuel : Nat)
    (schema : Schema) (options : ValidationOptions)
    (hn : schema.nullable = some (.bool true)) :
    jtdValidate rfc (fuel + 1) schema .null options = .result [] := by
  unfold jtdValidate
  rw [vws, hn]
  simp [jtruthyOpt, jtruthy, jIsNull, initState]

/-- Claim C9: the runtime-type checks are exact: every numeric type tag rejects
the JSON booleans `true` and `false`, and the `boolean` tag rejects every
JSON number; in each case with exactly one error at `schema_path =
["type"]`. -/
theorem exact_runtime_type_checks (rfc : String → Bool) (fuel : Nat) :
    (∀ t, t ∈ ["float32", "float64", "int8", "uint8", "int16", "uint16",
        "int32", "uint32"] → ∀ b : Bool,
      jtdValidate rfc (fuel + 1) (typeSchema t) (.bool b) ⟨0, 0⟩ =
        .result [⟨[], ["type"]⟩]) ∧
    (∀ q : ℚ, jtdValidate rfc (fuel + 1) (typeSchema "boolean") (.num q) ⟨0, 0⟩ =
      .result [⟨[], ["type"]⟩]) := by
  constructor
  · intro t ht b
    fin_cases ht <;> rfl
  · intro q
    rfl

/-- Claim C3: with `max_errors` positive, whenever the top-level `validate`
returns an error list (rather than surfacing `MaxDepthExceededError` or a
host exception), the list has at most `max_errors` entries; it has
exactly `max_errors` entries precisely when the walk was cut short by the
`_MaxErrorsReached` unwind (no error is ever recorded past the cap); and
that unwind is converted into a normal return of the collected errors,
not into an exception. -/
theorem validate_max_errors_bound (rfc : String → Bool) (fuel : Nat)
    (schema : Schema) (inst : JSON) (options : ValidationOptions)
    (errs : List ValidationError) (hpos : 0 < options.max_errors)
    (hret : jtdValidate rfc fuel schema inst options = .result errs) :
    errs.length ≤ options.max_errors ∧
    (errs.length = options.max_errors ↔
      ∃ s, vws rfc fuel (initState schema options) schema inst none =
        .maxErrors s) ∧
    (∀ s, vws rfc fuel (initState schema options) schema inst none =
        .maxErrors s →
      jtdValidate rfc fuel schema inst options = .result s.errors) := by
  have hinv := vws_errInv rfc options.max_errors fuel (initState schema options)
    schema inst none ⟨rfl, fun _ => hpos⟩
  have hthird : ∀ s, vws rfc fuel (initState schema options) schema inst none =
      .maxErrors s →
      jtdValidate rfc fuel schema inst options = .result s.errors := by
    intro s h
    unfold jtdValidate
    rw [h]
  unfold jtdValidate at hret
  cases hres : vws rfc fuel (initState schema options) schema inst none with
  | ok s =>
    rw [hres] at hret hinv
    simp only [WalkResult.errInv, VState.preOk] at hinv
    obtain ⟨hc, hb⟩ := hinv
    have herrs : errs = s.errors := by
      dsimp only at hret
      injection hret with h
      exact h.symm
    subst herrs
    have hlt := hb (by omega)
    refine ⟨by omega, ?_, fun s2 h2 => by cases h2⟩
    constructor
    · intro h; omega
    · rintro ⟨s2, h2⟩
      cases h2
  | maxErrors s =>
    rw [hres] at hret hinv
    simp only [WalkResult.errInv] at hinv
    obtain ⟨hc, hlen, hne⟩ := hinv
    have herrs : errs = s.errors := by
      dsimp only at hret
      injection hret with h
      exact h.symm
    subst herrs
    refine ⟨by omega, ?_, fun s2 h2 => by cases h2; exact hthird s hres⟩
    constructor
    · intro _; exact ⟨s, rfl⟩
    · intro _; exact hlen
  | maxDepth s =>
    rw [hres] at hret
    simp at hret
  | crash s =>
    rw [hres] at hret
    simp at hret
  | noFuel s =>
    rw [hres] at hret
    simp at hret

theorem validateInt_spec (s : VState) (lo hi : ℚ) (inst : JSON) :
    validateInt s lo hi inst =
      if specIntegerInRange lo hi inst then .ok s else pushError s := by
  cases inst with
  | num q =>
    by_cases h1 : q.den = 1 <;> by_cases h2 : lo ≤ q <;> by_cases h3 : q ≤ hi <;>
      simp [validateInt, specIntegerInRange, h1, h2, h3, not_le]
  | null => rfl
  | bool b => rfl
  | str v => rfl
  | arr xs => rfl
  | obj ms => rfl

theorem jtdValidate_int_tag (rfc : String → Bool) (fuel : Nat) (t : String)
    (lo hi : ℚ) (inst : JSON)
    (hdisp : ∀ s : VState, typeDispatch rfc s (some (.str t)) inst =
      validateInt s lo hi inst) :
    jtdValidate rfc (fuel + 1) (typeSchema t) inst ⟨0, 0⟩ =
      .result (if specIntegerInRange lo hi inst then [] else [⟨[], ["type"]⟩]) := by
  have h1 : vws rfc (fuel + 1) (initState (typeSchema t) ⟨0, 0⟩) (typeSchema t)
      inst none =
      (validateInt (pushSchemaToken (initState (typeSchema t) ⟨0, 0⟩) "type")
        lo hi inst).andThen (fun s => .ok (popSchemaToken s)) := by
    rw [vws]
    rw [if_neg (show ¬((jtruthyOpt (typeSchema t).nullable && jIsNull inst) = true) by
      simp [typeSchema, Schema.nullable, jtruthyOpt])]
    rw [show (typeSchema t).form = Form.TYPE from rfl]
    show typeCase rfc _ (typeSchema t).type inst = _
    unfold typeCase
    rw [show (typeSchema t).type = some (.str t) from rfl]
    dsimp only
    rw [hdisp]
  rw [jtdValidate, h1, validateInt_spec]
  cases hc : specIntegerInRange lo hi inst <;>
    simp [hc, WalkResult.andThen, pushError, popSchemaToken, pushSchemaToken,
      initState]

/-- Claim C6: for a TYPE-form schema with a sized integer tag, validation with
default options emits no error exactly when the instance is a JSON number
that is mathematically integral and lies in the respective inclusive
range; otherwise it emits exactly one error, at `schema_path = ["type"]`. -/
theorem sized_int_type_check (rfc : String → Bool) (fuel : Nat) (t : String)
    (inst : JSON)
    (ht : t ∈ ["int8", "uint8", "int16", "uint16", "int32", "uint32"]) :
    jtdValidate rfc (fuel + 1) (typeSchema t) inst ⟨0, 0⟩ =
      .result (if specIntegerInRange (specSizedIntBounds t).1
          (specSizedIntBounds t).2 inst then []
        else [⟨[], ["type"]⟩]) := by
  fin_cases ht <;> simp only [specSizedIntBounds] <;>
    exact jtdValidate_int_tag rfc fuel _ _ _ inst (fun s => rfl)

/-- Claim C10: `Schema.form` is total on all schemas and returns the first
match in the fixed priority order REF, TYPE, ENUM, ELEMENTS, PROPERTIES
(`properties` or `optional_properties`), VALUES, DISCRIMINATOR, EMPTY;
`additional_properties` and `mapping` never influence the result.  In
particular a schema with both `ref` and `type` reports REF, and a schema
with `mapping` but no `discriminator` reports EMPTY. -/
theorem form_priority_total :
    (∀ s : Schema,
      (s.form = .REF ↔ s.ref.isSome) ∧
      (s.form = .TYPE ↔ s.ref = none ∧ s.type.isSome) ∧
      (s.form = .ENUM ↔ s.ref = none ∧ s.type = none ∧ s.enum.isSome) ∧
      (s.form = .ELEMENTS ↔ s.ref = none ∧ s.type = none ∧ s.enum = none ∧
        s.elements.isSome) ∧
      (s.form = .PROPERTIES ↔ s.ref = none ∧ s.type = none ∧ s.enum = none ∧
        s.elements = none ∧ (s.properties.isSome ∨ s.optional_properties.isSome)) ∧
      (s.form = .VALUES ↔ s.ref = none ∧ s.type = none ∧ s.enum = none ∧
        s.elements = none ∧ s.properties = none ∧ s.optional_properties = none ∧
        s.values.isSome) ∧
      (s.form = .DISCRIMINATOR ↔ s.ref = none ∧ s.type = none ∧ s.enum = none ∧
        s.elements = none ∧ s.properties = none ∧ s.optional_properties = none ∧
        s.values = none ∧ s.discriminator.isSome) ∧
      (s.form = .EMPTY ↔ s.ref = none ∧ s.type = none ∧ s.enum = none ∧
        s.elements = none ∧ s.properties = none ∧ s.optional_properties = none ∧
        s.values = none ∧ s.discriminator = none)) ∧
    refAndTypeSchema.form = .REF ∧
    mappingOnlySchema.form = .EMPTY := by
  refine ⟨?_, by decide, by decide⟩
  intro s
  unfold Schema.form
  split_ifs with h1 h2 h3 h4 h5 h6 h7 <;>
    (simp_all [Option.isSome_iff_ne_none]; try tauto)

theorem loadMembers_map_isNone (key : String) (ms : List (String × JSON))
    (rest : List (String × JSON))
    (hkey : key = "definitions" ∨ key = "properties" ∨
      key = "optionalProperties" ∨ key = "mapping") :
    (loadMembers ((key, JSON.obj ms) :: rest)).isNone =
      ((loadMembers rest).isNone || (fromDictPairs ms).isNone) := by
  rcases hkey with rfl | rfl | rfl | rfl <;>
    cases hA : loadMembers rest <;> cases hB : fromDictPairs ms <;>
      simp [loadMembers, hA, hB]

theorem loadMembers_map_notObj_isNone (key : String) (v : JSON)
    (rest : List (String × JSON))
    (hkey : key = "definitions" ∨ key = "properties" ∨
      key = "optionalProperties" ∨ key = "mapping")
    (hv : ∀ ms, v ≠ JSON.obj ms) :
    (loadMembers ((key, v) :: rest)).isNone = true := by
  rcases hkey with rfl | rfl | rfl | rfl <;>
    cases hA : loadMembers rest <;>
      cases v <;> simp_all [loadMembers, hA]

theorem loadMembers_single_isNone (key : String) (v : JSON)
    (rest : List (String × JSON))
    (hkey : key = "elements" ∨ key = "values") :
    (loadMembers ((key, v) :: rest)).isNone =
      ((loadMembers rest).isNone || (fromDict v).isNone) := by
  rcases hkey with rfl | rfl <;>
    cases hA : loadMembers rest <;> cases hB : fromDict v <;>
      simp [loadMembers, hA, hB]

theorem loadMembers_other_isNone (k : String) (v : JSON)
    (rest : List (String × JSON))
    (hk1 : ¬k = "definitions") (hk2 : ¬k = "elements")
    (hk3 : ¬k = "properties") (hk4 : ¬k = "optionalProperties")
    (hk5 : ¬k = "values") (hk6 : ¬k = "mapping") :
    (loadMembers ((k, v) :: rest)).isNone = (loadMembers rest).isNone := by
  cases hA : loadMembers rest <;>
    simp [loadMembers, hA, hk1, hk2, hk3, hk4, hk5, hk6]

set_option maxHeartbeats 1000000 in
mutual
theorem fromDict_isNone_spec : (j : JSON) → goodShape j = true →
    (fromDict j).isNone = specHasUnknownKeyword j
  | .obj d, h => by
    have hm := loadMembers_isNone_spec d (by simpa [goodShape] using h)
    cases hl : loadMembers d with
    | none =>
      rw [hl] at hm
      simp only [Option.isNone_none, Bool.true_or] at hm
      simp [fromDict, hl, specHasUnknownKeyword, ← hm]
    | some subs =>
      rw [hl] at hm
      simp only [Option.isNone_some, Bool.false_or] at hm
      rw [specHasUnknownKeyword, ← hm]
      cases hall : d.all (fun kv => Schema.keywords.contains kv.1) with
      | false =>
        simp only [fromDict, hl, Option.some_bind]
        rw [if_neg (by rw [hall]; exact Bool.false_ne_true)]
        rfl
      | true =>
        simp only [fromDict, hl, Option.some_bind]
        rw [if_pos hall]
        rfl
  | .null, h => by simp [goodShape] at h
  | .bool b, h => by simp [goodShape] at h
  | .num q, h => by simp [goodShape] at h
  | .str v, h => by simp [goodShape] at h
  | .arr xs, h => by simp [goodShape] at h

theorem loadMembers_isNone_spec : (l : List (String × JSON)) →
    goodMembers l = true →
    ((loadMembers l).isNone ||
      !(l.all fun kv => Schema.keywords.contains kv.1)) =
      specMembersHaveUnknown l
  | [], _ => by simp [loadMembers, specMembersHaveUnknown]
  | (k, v) :: rest, h => by
    rw [goodMembers, Bool.and_eq_true] at h
    obtain ⟨hbr, hrest⟩ := h
    have ihrest := loadMembers_isNone_spec rest hrest
    by_cases hmap : k = "definitions" ∨ k = "properties" ∨
        k = "optionalProperties" ∨ k = "mapping"
    · rw [if_pos hmap] at hbr
      have hck : Schema.keywords.contains k = true := by
        rcases hmap with rfl | rfl | rfl | rfl <;> decide
      cases v with
      | obj ms =>
        have ihpairs := fromDictPairs_isNone_spec ms hbr
        rw [specMembersHaveUnknown, if_pos hmap,
          show specMapValue (JSON.obj ms) = specPairsHaveUnknown ms from rfl,
          ← ihpairs, ← ihrest, loadMembers_map_isNone k ms rest hmap,
          List.all_cons, hck]
        simp [Bool.or_assoc, Bool.or_comm, Bool.or_left_comm]
      | null => exact absurd hbr Bool.false_ne_true
      | bool b => exact absurd hbr Bool.false_ne_true
      | num q => exact absurd hbr Bool.false_ne_true
      | str sv => exact absurd hbr Bool.false_ne_true
      | arr xs => exact absurd hbr Bool.false_ne_true
    · by_cases hsing : k = "elements" ∨ k = "values"
      · rw [if_neg hmap, if_pos hsing] at hbr
        have ihv := fromDict_isNone_spec v hbr
        have hck : Schema.keywords.contains k = true := by
          rcases hsing with rfl | rfl <;> decide
        rw [specMembersHaveUnknown, if_neg hmap, if_pos hsing, ← ihv,
          ← ihrest, loadMembers_single_isNone k v rest hsing,
          List.all_cons, hck]
        simp [Bool.or_assoc, Bool.or_comm, Bool.or_left_comm]
      · have hk1 : ¬k = "definitions" := fun hx => hmap (Or.inl hx)
        have hk3 : ¬k = "properties" := fun hx => hmap (Or.inr (Or.inl hx))
        have hk4 : ¬k = "optionalProperties" := fun hx =>
          hmap (Or.inr (Or.inr (Or.inl hx)))
        have hk6 : ¬k = "mapping" := fun hx =>
          hmap (Or.inr (Or.inr (Or.inr hx)))
        have hk2 : ¬k = "elements" := fun hx => hsing (Or.inl hx)
        have hk5 : ¬k = "values" := fun hx => hsing (Or.inr hx)
        rw [specMembersHaveUnknown, if_neg hmap, if_neg hsing, ← ihrest,
          loadMembers_other_isNone k v rest hk1 hk2 hk3 hk4 hk5 hk6,
          List.all_cons]
        cases hck : Schema.keywords.contains k <;>
          simp [Bool.or_assoc, Bool.or_comm, Bool.or_left_comm]

theorem fromDictPairs_isNone_spec : (l : List (String × JSON)) →
    goodPairs l = true →
    (fromDictPairs l).isNone = specPairsHaveUnknown l
  | [], _ => by simp [fromDictPairs, specPairsHaveUnknown]
  | (k, v) :: rest, h => by
    rw [goodPairs, Bool.and_eq_true] at h
    obtain ⟨hv, hrest⟩ := h
    have ih1 := fromDict_isNone_spec v hv
    have ih2 := fromDictPairs_isNone_spec rest hrest
    cases hA : fromDict v <;> cases hB : fromDictPairs rest <;>
      simp_all [fromDictPairs, specPairsHaveUnknown]
end

/-- Claim C8: for a raw JSON object whose values under `definitions`,
`elements`, `properties`, `optionalProperties`, `values` and `mapping`
are recursively JSON objects, `Schema.from_dict` fails exactly when some
object at some schema position contains a key outside the thirteen
keywords (the loader performs no other check); in particular the object
with the single key `foo` is rejected. -/
theorem from_dict_unknown_keyword (j : JSON) (h : goodShape j = true) :
    ((fromDict j = none) ↔ specHasUnknownKeyword j = true) ∧
    fromDict (.obj [("foo", .num 1)]) = none := by
  constructor
  · rw [← Option.isNone_iff_eq_none, fromDict_isNone_spec j h]
  · have h2 := fromDict_isNone_spec (.obj [("foo", .num 1)]) (by decide)
    rw [← Option.isNone_iff_eq_none, h2]
    decide

/-- Witness for `from_dict_unknown_keyword` at the object with the single
key `foo`. -/
theorem from_dict_unknown_keyword_witness :
    goodShape (.obj [("foo", .num 1)]) = true ∧
    (((fromDict (.obj [("foo", .num 1)]) = none) ↔
      specHasUnknownKeyword (.obj [("foo", .num 1)]) = true) ∧
     fromDict (.obj [("foo", .num 1)]) = none) :=
  ⟨by decide, from_dict_unknown_keyword (.obj [("foo", .num 1)]) (by decide)⟩

/-- Witness for `validate_max_errors_bound`: the five-nulls scenario with
`max_errors = 3` returns exactly three errors. -/
theorem validate_max_errors_bound_witness :
    ([⟨["0"], ["elements", "type"]⟩, ⟨["1"], ["elements", "type"]⟩,
      ⟨["2"], ["elements", "type"]⟩] : List ValidationError).length ≤
      (⟨0, 3⟩ : ValidationOptions).max_errors ∧
    (([⟨["0"], ["elements", "type"]⟩, ⟨["1"], ["elements", "type"]⟩,
      ⟨["2"], ["elements", "type"]⟩] : List ValidationError).length =
      (⟨0, 3⟩ : ValidationOptions).max_errors ↔
      ∃ s, vws rfcNone 5 (initState elementsStringSchema ⟨0, 3⟩)
        elementsStringSchema (.arr [.null, .null, .null, .null, .null]) none =
        .maxErrors s) ∧
    (∀ s, vws rfcNone 5 (initState elementsStringSchema ⟨0, 3⟩)
        elementsStringSchema (.arr [.null, .null, .null, .null, .null]) none =
        .maxErrors s →
      jtdValidate rfcNone 5 elementsStringSchema
        (.arr [.null, .null, .null, .null, .null]) ⟨0, 3⟩ =
        .result s.errors) :=
  validate_max_errors_bound rfcNone 5 elementsStringSchema
    (.arr [.null, .null, .null, .null, .null]) ⟨0, 3⟩
    [⟨["0"], ["elements", "type"]⟩, ⟨["1"], ["elements", "type"]⟩,
     ⟨["2"], ["elements", "type"]⟩] (by decide) (by decide)

/-- Witness for `ref_max_depth_aborts`: one frame active, `max_depth = 1`,
plus the looping-ref whole-call scenario. -/
theorem ref_max_depth_aborts_witness :
    vws rfcNone 1 (initState loopRootSchema ⟨1, 0⟩) loopRefSchema .null none =
      .maxDepth (initState loopRootSchema ⟨1, 0⟩) ∧
    jtdValidate rfcNone 40 loopRootSchema .null ⟨32, 0⟩ = .maxDepthExceeded :=
  ref_max_depth_aborts rfcNone 0 (initState loopRootSchema ⟨1, 0⟩)
    loopRefSchema .null none (by decide) (by decide) (by decide) (by decide)

/-- Witness for `sized_int_type_check`: `uint8` against the number 300
(out of range, hence one error at `schema_path = ["type"]`). -/
theorem sized_int_type_check_witness :
    jtdValidate rfcNone 1 (typeSchema "uint8") (.num 300) ⟨0, 0⟩ =
      .result (if specIntegerInRange (specSizedIntBounds "uint8").1
          (specSizedIntBounds "uint8").2 (.num 300) then []
        else [⟨[], ["type"]⟩]) :=
  sized_int_type_check rfcNone 0 "uint8" (.num 300) (by decide)

/-- Witness for `nullable_null_short_circuit`: a nullable string schema
accepts `null` with no error. -/
theorem nullable_null_short_circuit_witness :
    jtdValidate rfcNone 1 nullableStringSchema .null ⟨0, 0⟩ = .result [] :=
  nullable_null_short_circuit rfcNone 0 nullableStringSchema ⟨0, 0⟩ rfl

/-- Witness for `exact_runtime_type_checks`: `float32` rejects `true`,
`boolean` rejects the number 7. -/
theorem exact_runtime_type_checks_witness :
    jtdValidate rfcNone 1 (typeSchema "float32") (.bool true) ⟨0, 0⟩ =
      .result [⟨[], ["type"]⟩] ∧
    jtdValidate rfcNone 1 (typeSchema "boolean") (.num 7) ⟨0, 0⟩ =
      .result [⟨[], ["type"]⟩] :=
  ⟨(exact_runtime_type_checks rfcNone 0).1 "float32" (by decide) true,
   (exact_runtime_type_checks rfcNone 0).2 7⟩

/-- Witness for `form_priority_total`: the TYPE clause at a concrete
TYPE-form schema. -/
theorem form_priority_total_witness :
    (typeSchema "int8").form = Form.TYPE ↔
      (typeSchema "int8").ref = none ∧ (typeSchema "int8").type.isSome :=
  (form_priority_total.1 (typeSchema "int8")).2.1
